import Mathlib

/-!
# Reference ellipsoids and the leap-second table of ERFA

A shallow embedding of `eraBform` (src/src/bform.c) and of the declarations of
src/src/erfaextra.h, with the properties of the specification proved about it.

* The C `double` literals are read as exact rationals (`ℚ`): `6378137.0` is the
  rational 6378137 and `1.0 / 298.257223563` is the rational
  1000000000 / 298257223563.  No rounding is modelled.
* The C `int` identifier and status are integers (`Int`); the function does no
  arithmetic on them, it only compares the identifier with the case labels.
* The two output cells `*a` and `*f` are explicit state: the function receives
  their prior contents and returns their final contents.
-/

namespace Erfa

/-! ## Identifiers -/

/-- The Earth identifiers `ERFA_WGS84`, `ERFA_GRS80`, `ERFA_WGS72` are the case
labels of the first three branches of `eraBform`.  They are defined in erfam.h,
which is not among the sources, so the embedding takes them as a parameter. -/
structure Erfam where
  ERFA_WGS84 : Int
  ERFA_GRS80 : Int
  ERFA_WGS72 : Int
deriving DecidableEq, Repr

/-- A concrete assignment of the three Earth identifiers, 1, 2 and 3, for which
the switch is well formed.  It is an instance of the parameter and nothing
more: erfam.h is not among the sources, and no theorem about `eraBform` in
general depends on these values.  It instantiates the parameter in the
witnesses. -/
def earth123 : Erfam := ⟨1, 2, 3⟩

/-- Moon (erfaextra.h, line 27). -/
def ERFA_IAUMOON1988 : Int := 4
/-- Moon (erfaextra.h, line 28). -/
def ERFA_IAUMOON1979 : Int := 5
/-- Mercury (erfaextra.h, line 31). -/
def ERFA_IAUMERCURY2015 : Int := 6
/-- Mercury (erfaextra.h, line 32). -/
def ERFA_IAUMERCURY2009 : Int := 7
/-- Mercury (erfaextra.h, line 33). -/
def ERFA_IAUMERCURY1979 : Int := 8
/-- Venus (erfaextra.h, line 36). -/
def ERFA_IAUVENUS1991 : Int := 9
/-- Venus (erfaextra.h, line 37). -/
def ERFA_IAUVENUS1982 : Int := 10
/-- Mars (erfaextra.h, line 40). -/
def ERFA_IAUMARS2000 : Int := 11
/-- Mars (erfaextra.h, line 41). -/
def ERFA_IAUMARS1979 : Int := 12

/-- The twelve case labels of the switch of `eraBform`, in source order. -/
def caseLabels (K : Erfam) : List Int :=
  [K.ERFA_WGS84, K.ERFA_GRS80, K.ERFA_WGS72,
   ERFA_IAUMOON1988, ERFA_IAUMOON1979,
   ERFA_IAUMERCURY2015, ERFA_IAUMERCURY2009, ERFA_IAUMERCURY1979,
   ERFA_IAUVENUS1991, ERFA_IAUVENUS1982,
   ERFA_IAUMARS2000, ERFA_IAUMARS1979]

/-- A C switch statement only compiles when its case labels are pairwise
distinct; this is the one constraint the source puts on the values of
erfam.h. -/
def LabelsDistinct (K : Erfam) : Prop := (caseLabels K).Nodup

instance (K : Erfam) : Decidable (LabelsDistinct K) := by
  unfold LabelsDistinct; infer_instance

/-! ## The output cells and `eraBform` -/

/-- The contents of the two output cells `*a` (equatorial radius, meters) and
`*f` (flattening). -/
structure Cells where
  a : ℚ
  f : ℚ
deriving DecidableEq, Repr

/-- The C function `int eraBform(int n, double *a, double *f)` of bform.c:
`c` holds the contents of `*a` and `*f` before the call, the result is the
returned status and the contents of the cells after the call.  The switch is a
chain of comparisons of `n` with the case labels in source order; each branch
assigns `*a`, then `*f`; the default branch returns -1, the others fall out of
the switch to `return 0`. -/
def eraBform (K : Erfam) (n : Int) (c : Cells) : Int × Cells :=
  if n = K.ERFA_WGS84 then
    let c := { c with a := 6378137.0 }
    let c := { c with f := 1.0 / 298.257223563 }
    (0, c)
  else if n = K.ERFA_GRS80 then
    let c := { c with a := 6378137.0 }
    let c := { c with f := 1.0 / 298.257222101 }
    (0, c)
  else if n = K.ERFA_WGS72 then
    let c := { c with a := 6378135.0 }
    let c := { c with f := 1.0 / 298.26 }
    (0, c)
  else if n = ERFA_IAUMOON1988 then
    let c := { c with a := 1738400.0 }
    let c := { c with f := 0.0 }
    (0, c)
  else if n = ERFA_IAUMOON1979 then
    let c := { c with a := 1738000.0 }
    let c := { c with f := 0.0 }
    (0, c)
  else if n = ERFA_IAUMERCURY2015 then
    let c := { c with a := 2439400.0 }
    let c := { c with f := 0.0 }
    (0, c)
  else if n = ERFA_IAUMERCURY2009 then
    let c := { c with a := 2439700.0 }
    let c := { c with f := 0.0 }
    (0, c)
  else if n = ERFA_IAUMERCURY1979 then
    let c := { c with a := 2439000.0 }
    let c := { c with f := 0.0 }
    (0, c)
  else if n = ERFA_IAUVENUS1991 then
    let c := { c with a := 6051800.0 }
    let c := { c with f := 0.0 }
    (0, c)
  else if n = ERFA_IAUVENUS1982 then
    let c := { c with a := 6051000.0 }
    let c := { c with f := 0.0 }
    (0, c)
  else if n = ERFA_IAUMARS2000 then
    let c := { c with a := 3396190.0 }
    let c := { c with f := 1.0 / 169.894447224 }
    (0, c)
  else if n = ERFA_IAUMARS1979 then
    let c := { c with a := 3393400.0 }
    let c := { c with f := 1.0 / 192.80825219319385 }
    (0, c)
  else
    let c := { c with a := 0.0 }
    let c := { c with f := 0.0 }
    (-1, c)

/-! ## The leap-second table -/

/-- The record `eraLEAPSECOND` of erfaextra.h: year, month and delta-AT. -/
structure eraLEAPSECOND where
  iyear : Int
  month : Int
  delat : ℚ
deriving DecidableEq, Repr

/-- Modelled from the spec: the process-wide leap-second table, "a process-wide
ordered sequence of LeapSecondRecord, owned by the library as global mutable
state".  erfaextra.h only declares the two functions that access it; the file
that holds the table is not among the sources. -/
structure LeapSecondTable where
  changes : List eraLEAPSECOND
deriving DecidableEq, Repr

/-- Modelled from the spec: `void eraSetLeapSeconds(eraLEAPSECOND *leapseconds,
int count)` is declared in erfaextra.h and defined in a file that is not among
the sources.  The spec: it "replaces the entire table with the supplied
sequence of `count` records"; the prior contents become unreachable.  The
pointer argument is the sequence `leapseconds`, of which the first `count`
records are taken. -/
def eraSetLeapSeconds (leapseconds : List eraLEAPSECOND) (count : Int)
    (_t : LeapSecondTable) : LeapSecondTable :=
  { changes := leapseconds.take count.toNat }

/-- Modelled from the spec: `int eraGetLeapSeconds(eraLEAPSECOND **leapseconds)`
is declared in erfaextra.h and defined in a file that is not among the sources.
The spec: it "returns the current full table and its length".  The result is
the returned count and the table handed to the caller; the table itself is
left as it is. -/
def eraGetLeapSeconds (t : LeapSecondTable) : Int × List eraLEAPSECOND :=
  ((t.changes.length : Int), t.changes)

/-! ## Helper lemmas -/

/-- The pairwise inequalities that `LabelsDistinct` gives between the three
Earth identifiers and the nine identifiers of erfaextra.h. -/
theorem labels_ne (K : Erfam) (h : LabelsDistinct K) :
    K.ERFA_WGS84 ≠ K.ERFA_GRS80 ∧ K.ERFA_WGS84 ≠ K.ERFA_WGS72 ∧
    K.ERFA_GRS80 ≠ K.ERFA_WGS72 ∧
    (∀ m : Int, 4 ≤ m → m ≤ 12 →
      m ≠ K.ERFA_WGS84 ∧ m ≠ K.ERFA_GRS80 ∧ m ≠ K.ERFA_WGS72) := by
  simp only [LabelsDistinct, caseLabels, ERFA_IAUMOON1988, ERFA_IAUMOON1979,
    ERFA_IAUMERCURY2015, ERFA_IAUMERCURY2009, ERFA_IAUMERCURY1979,
    ERFA_IAUVENUS1991, ERFA_IAUVENUS1982, ERFA_IAUMARS2000, ERFA_IAUMARS1979,
    List.nodup_cons, List.mem_cons, List.mem_singleton, not_or] at h
  obtain ⟨⟨h12, h13, a4, a5, a6, a7, a8, a9, a10, a11, a12⟩,
    ⟨h23, b4, b5, b6, b7, b8, b9, b10, b11, b12⟩,
    ⟨c4, c5, c6, c7, c8, c9, c10, c11, c12⟩, -⟩ := h
  refine ⟨h12, h13, h23, ?_⟩
  intro m h4 h12
  refine ⟨?_, ?_, ?_⟩ <;> omega

/-- Case analysis of `eraBform`: the identifier equals one of the twelve case
labels and the call returns status 0 with that branch's constants, or it equals
none of them and the call returns -1 with both cells zeroed. -/
theorem eraBform_cases (K : Erfam) (n : Int) (c : Cells) :
    (n = K.ERFA_WGS84 ∧ eraBform K n c = (0, ⟨6378137, 1 / 298.257223563⟩)) ∨
    (n = K.ERFA_GRS80 ∧ eraBform K n c = (0, ⟨6378137, 1 / 298.257222101⟩)) ∨
    (n = K.ERFA_WGS72 ∧ eraBform K n c = (0, ⟨6378135, 1 / 298.26⟩)) ∨
    (n = ERFA_IAUMOON1988 ∧ eraBform K n c = (0, ⟨1738400, 0⟩)) ∨
    (n = ERFA_IAUMOON1979 ∧ eraBform K n c = (0, ⟨1738000, 0⟩)) ∨
    (n = ERFA_IAUMERCURY2015 ∧ eraBform K n c = (0, ⟨2439400, 0⟩)) ∨
    (n = ERFA_IAUMERCURY2009 ∧ eraBform K n c = (0, ⟨2439700, 0⟩)) ∨
    (n = ERFA_IAUMERCURY1979 ∧ eraBform K n c = (0, ⟨2439000, 0⟩)) ∨
    (n = ERFA_IAUVENUS1991 ∧ eraBform K n c = (0, ⟨6051800, 0⟩)) ∨
    (n = ERFA_IAUVENUS1982 ∧ eraBform K n c = (0, ⟨6051000, 0⟩)) ∨
    (n = ERFA_IAUMARS2000 ∧ eraBform K n c = (0, ⟨3396190, 1 / 169.894447224⟩)) ∨
    (n = ERFA_IAUMARS1979 ∧ eraBform K n c = (0, ⟨3393400, 1 / 192.80825219319385⟩)) ∨
    (n ∉ caseLabels K ∧ eraBform K n c = (-1, ⟨0, 0⟩)) := by
  unfold eraBform
  by_cases h1 : n = K.ERFA_WGS84
  · exact Or.inl ⟨h1, by rw [if_pos h1]; norm_num⟩
  rw [if_neg h1]
  refine Or.inr ?_
  by_cases h2 : n = K.ERFA_GRS80
  · exact Or.inl ⟨h2, by rw [if_pos h2]; norm_num⟩
  rw [if_neg h2]
  refine Or.inr ?_
  by_cases h3 : n = K.ERFA_WGS72
  · exact Or.inl ⟨h3, by rw [if_pos h3]; norm_num⟩
  rw [if_neg h3]
  refine Or.inr ?_
  by_cases h4 : n = ERFA_IAUMOON1988
  · exact Or.inl ⟨h4, by rw [if_pos h4]; norm_num⟩
  rw [if_neg h4]
  refine Or.inr ?_
  by_cases h5 : n = ERFA_IAUMOON1979
  · exact Or.inl ⟨h5, by rw [if_pos h5]; norm_num⟩
  rw [if_neg h5]
  refine Or.inr ?_
  by_cases h6 : n = ERFA_IAUMERCURY2015
  · exact Or.inl ⟨h6, by rw [if_pos h6]; norm_num⟩
  rw [if_neg h6]
  refine Or.inr ?_
  by_cases h7 : n = ERFA_IAUMERCURY2009
  · exact Or.inl ⟨h7, by rw [if_pos h7]; norm_num⟩
  rw [if_neg h7]
  refine Or.inr ?_
  by_cases h8 : n = ERFA_IAUMERCURY1979
  · exact Or.inl ⟨h8, by rw [if_pos h8]; norm_num⟩
  rw [if_neg h8]
  refine Or.inr ?_
  by_cases h9 : n = ERFA_IAUVENUS1991
  · exact Or.inl ⟨h9, by rw [if_pos h9]; norm_num⟩
  rw [if_neg h9]
  refine Or.inr ?_
  by_cases h10 : n = ERFA_IAUVENUS1982
  · exact Or.inl ⟨h10, by rw [if_pos h10]; norm_num⟩
  rw [if_neg h10]
  refine Or.inr ?_
  by_cases h11 : n = ERFA_IAUMARS2000
  · exact Or.inl ⟨h11, by rw [if_pos h11]; norm_num⟩
  rw [if_neg h11]
  refine Or.inr ?_
  by_cases h12 : n = ERFA_IAUMARS1979
  · exact Or.inl ⟨h12, by rw [if_pos h12]; norm_num⟩
  rw [if_neg h12]
  refine Or.inr ?_
  refine ⟨?_, by norm_num⟩
  simp only [caseLabels, List.mem_cons, List.mem_singleton, List.not_mem_nil, or_false]
  tauto

/-- Setting a table of no records leaves the store empty: the degenerate case
`count = 0` of the set operation. -/
theorem eraSetLeapSeconds_zero (leapseconds : List eraLEAPSECOND) (t : LeapSecondTable) :
    eraGetLeapSeconds (eraSetLeapSeconds leapseconds 0 t) = (0, []) := rfl

/-! ## The ellipsoid table -/

/-- Claim C1: for each of the twelve defined ellipsoid identifiers, whatever the
output cells held before, `eraBform` returns status 0 and sets (a, f) to the
radius and flattening the table of the specification lists for that body, the
constants read as exact rationals.  The three Earth identifiers are those of
erfam.h, any values for which the switch is well formed. -/
theorem eraBform_table (K : Erfam) (h : LabelsDistinct K) (c : Cells) :
    eraBform K K.ERFA_WGS84 c = (0, ⟨6378137, 1 / 298.257223563⟩) ∧
    eraBform K K.ERFA_GRS80 c = (0, ⟨6378137, 1 / 298.257222101⟩) ∧
    eraBform K K.ERFA_WGS72 c = (0, ⟨6378135, 1 / 298.26⟩) ∧
    eraBform K ERFA_IAUMOON1988 c = (0, ⟨1738400, 0⟩) ∧
    eraBform K ERFA_IAUMOON1979 c = (0, ⟨1738000, 0⟩) ∧
    eraBform K ERFA_IAUMERCURY2015 c = (0, ⟨2439400, 0⟩) ∧
    eraBform K ERFA_IAUMERCURY2009 c = (0, ⟨2439700, 0⟩) ∧
    eraBform K ERFA_IAUMERCURY1979 c = (0, ⟨2439000, 0⟩) ∧
    eraBform K ERFA_IAUVENUS1991 c = (0, ⟨6051800, 0⟩) ∧
    eraBform K ERFA_IAUVENUS1982 c = (0, ⟨6051000, 0⟩) ∧
    eraBform K ERFA_IAUMARS2000 c = (0, ⟨3396190, 1 / 169.894447224⟩) ∧
    eraBform K ERFA_IAUMARS1979 c = (0, ⟨3393400, 1 / 192.80825219319385⟩) := by
  obtain ⟨h12, h13, h23, hm⟩ := labels_ne K h
  have e4 := hm 4 (by decide) (by decide)
  have e5 := hm 5 (by decide) (by decide)
  have e6 := hm 6 (by decide) (by decide)
  have e7 := hm 7 (by decide) (by decide)
  have e8 := hm 8 (by decide) (by decide)
  have e9 := hm 9 (by decide) (by decide)
  have e10 := hm 10 (by decide) (by decide)
  have e11 := hm 11 (by decide) (by decide)
  have e12 := hm 12 (by decide) (by decide)
  have h21 := h12.symm
  have h31 := h13.symm
  have h32 := h23.symm
  refine ⟨?_, ?_, ?_, ?_, ?_, ?_, ?_, ?_, ?_, ?_, ?_, ?_⟩ <;>
    simp only [eraBform, ERFA_IAUMOON1988, ERFA_IAUMOON1979,
      ERFA_IAUMERCURY2015, ERFA_IAUMERCURY2009, ERFA_IAUMERCURY1979,
      ERFA_IAUVENUS1991, ERFA_IAUVENUS1982, ERFA_IAUMARS2000, ERFA_IAUMARS1979,
      h21, h31, h32, e4, e5, e6, e7, e8, e9, e10, e11, e12, if_true, if_false] <;>
    norm_num

/-- Witness of `eraBform_table`: the Earth identifiers 1, 2, 3
with both cells holding 0 before the call. -/
theorem eraBform_table_witness :
    LabelsDistinct earth123 ∧
    eraBform earth123 earth123.ERFA_WGS84 ⟨0, 0⟩ = (0, ⟨6378137, 1 / 298.257223563⟩) ∧
    eraBform earth123 earth123.ERFA_GRS80 ⟨0, 0⟩ = (0, ⟨6378137, 1 / 298.257222101⟩) ∧
    eraBform earth123 earth123.ERFA_WGS72 ⟨0, 0⟩ = (0, ⟨6378135, 1 / 298.26⟩) ∧
    eraBform earth123 ERFA_IAUMOON1988 ⟨0, 0⟩ = (0, ⟨1738400, 0⟩) ∧
    eraBform earth123 ERFA_IAUMOON1979 ⟨0, 0⟩ = (0, ⟨1738000, 0⟩) ∧
    eraBform earth123 ERFA_IAUMERCURY2015 ⟨0, 0⟩ = (0, ⟨2439400, 0⟩) ∧
    eraBform earth123 ERFA_IAUMERCURY2009 ⟨0, 0⟩ = (0, ⟨2439700, 0⟩) ∧
    eraBform earth123 ERFA_IAUMERCURY1979 ⟨0, 0⟩ = (0, ⟨2439000, 0⟩) ∧
    eraBform earth123 ERFA_IAUVENUS1991 ⟨0, 0⟩ = (0, ⟨6051800, 0⟩) ∧
    eraBform earth123 ERFA_IAUVENUS1982 ⟨0, 0⟩ = (0, ⟨6051000, 0⟩) ∧
    eraBform earth123 ERFA_IAUMARS2000 ⟨0, 0⟩ = (0, ⟨3396190, 1 / 169.894447224⟩) ∧
    eraBform earth123 ERFA_IAUMARS1979 ⟨0, 0⟩ = (0, ⟨3393400, 1 / 192.80825219319385⟩) :=
  ⟨by decide, eraBform_table earth123 (by decide) ⟨0, 0⟩⟩

/-- Claim C2: for every integer `n` that is not one of the twelve defined
identifiers `eraBform` returns status -1 and sets both `a` and `f` to 0; on the
defined identifiers the status is 0; so the status is -1 exactly when `n` is
outside the defined set, and it is never a value other than 0 or -1. -/
theorem eraBform_invalid (K : Erfam) (n : Int) (c : Cells) :
    (n ∉ caseLabels K → eraBform K n c = (-1, ⟨0, 0⟩)) ∧
    (n ∈ caseLabels K → (eraBform K n c).1 = 0) ∧
    ((eraBform K n c).1 = -1 ↔ n ∉ caseLabels K) ∧
    ((eraBform K n c).1 = 0 ∨ (eraBform K n c).1 = -1) := by
  have hmem : ∀ m : Int, m ∈ caseLabels K ↔
      (m = K.ERFA_WGS84 ∨ m = K.ERFA_GRS80 ∨ m = K.ERFA_WGS72 ∨
       m = ERFA_IAUMOON1988 ∨ m = ERFA_IAUMOON1979 ∨
       m = ERFA_IAUMERCURY2015 ∨ m = ERFA_IAUMERCURY2009 ∨ m = ERFA_IAUMERCURY1979 ∨
       m = ERFA_IAUVENUS1991 ∨ m = ERFA_IAUVENUS1982 ∨
       m = ERFA_IAUMARS2000 ∨ m = ERFA_IAUMARS1979) := by
    intro m
    simp only [caseLabels, List.mem_cons, List.mem_singleton, List.not_mem_nil, or_false]
  rcases eraBform_cases K n c with
    ⟨hn, hr⟩ | ⟨hn, hr⟩ | ⟨hn, hr⟩ | ⟨hn, hr⟩ | ⟨hn, hr⟩ | ⟨hn, hr⟩ | ⟨hn, hr⟩ |
    ⟨hn, hr⟩ | ⟨hn, hr⟩ | ⟨hn, hr⟩ | ⟨hn, hr⟩ | ⟨hn, hr⟩ | ⟨hn, hr⟩
  case inr.inr.inr.inr.inr.inr.inr.inr.inr.inr.inr.inr =>
    rw [hr]
    exact ⟨fun _ => rfl, fun h => absurd h hn, ⟨fun _ => hn, fun _ => rfl⟩, Or.inr rfl⟩
  all_goals
    have hin : n ∈ caseLabels K := by
      rw [hmem]
      simp only [hn, true_or, or_true]
    rw [hr]
    refine ⟨fun h => absurd hin h, fun _ => rfl, ⟨fun h => ?_, fun h => absurd hin h⟩, Or.inl rfl⟩
    exact absurd h (by decide)

/-- Counterexample to claim C3 as stated.  The claim says both that erfam.h
defines ERFA_WGS84, ERFA_GRS80, ERFA_WGS72 as 1, 2, 3 and that `eraBform`
rejects each of 0, 1, 2, 3, 13, -1, 999.  With those three values the inputs
1, 2 and 3 reach the first three case branches and return status 0 with the
Earth constants; and there is no assignment of the three identifiers at all
under which both halves of the claim hold. -/
theorem eraBform_earth_identifiers_accepted :
    eraBform ⟨1, 2, 3⟩ 1 ⟨0, 0⟩ = (0, ⟨6378137, 1 / 298.257223563⟩) ∧
    eraBform ⟨1, 2, 3⟩ 2 ⟨0, 0⟩ = (0, ⟨6378137, 1 / 298.257222101⟩) ∧
    eraBform ⟨1, 2, 3⟩ 3 ⟨0, 0⟩ = (0, ⟨6378135, 1 / 298.26⟩) ∧
    ¬ (∃ K : Erfam, K.ERFA_WGS84 = 1 ∧ K.ERFA_GRS80 = 2 ∧ K.ERFA_WGS72 = 3 ∧
        ∀ n ∈ [(0 : Int), 1, 2, 3, 13, -1, 999],
          eraBform K n ⟨0, 0⟩ = (-1, ⟨0, 0⟩)) := by
  refine ⟨?_, ?_, ?_, ?_⟩
  · norm_num [eraBform]
  · norm_num [eraBform]
  · norm_num [eraBform]
  · rintro ⟨K, hW, -, -, h⟩
    have h1 := congrArg Prod.fst (h 1 (by decide))
    rw [eraBform, if_pos hW.symm] at h1
    exact absurd h1 (by decide)

/-- Claim C3, amended: whatever values erfam.h gives ERFA_WGS84, ERFA_GRS80 and
ERFA_WGS72, for each of the identifiers 0, 1, 2, 3, 13, -1 and 999 `eraBform`
returns a = 0, f = 0 and the invalid-identifier status -1 exactly when the
identifier is none of those three, and returns status 0 exactly when it is one
of them (none of the seven is an identifier of erfaextra.h, which are 4..12).
In particular, if erfam.h defines the three as 1, 2, 3, then of the seven
exactly 1, 2 and 3 are accepted. -/
theorem eraBform_invalid_examples (K : Erfam) (n : Int) (c : Cells)
    (hn : n ∈ [(0 : Int), 1, 2, 3, 13, -1, 999]) :
    (eraBform K n c = (-1, ⟨0, 0⟩) ↔
      (n ≠ K.ERFA_WGS84 ∧ n ≠ K.ERFA_GRS80 ∧ n ≠ K.ERFA_WGS72)) ∧
    ((eraBform K n c).1 = 0 ↔
      (n = K.ERFA_WGS84 ∨ n = K.ERFA_GRS80 ∨ n = K.ERFA_WGS72)) ∧
    (K.ERFA_WGS84 = 1 → K.ERFA_GRS80 = 2 → K.ERFA_WGS72 = 3 →
      ((eraBform K n c).1 = 0 ↔ (n = 1 ∨ n = 2 ∨ n = 3))) := by
  have hlist : n = 0 ∨ n = 1 ∨ n = 2 ∨ n = 3 ∨ n = 13 ∨ n = -1 ∨ n = 999 := by
    simpa only [List.mem_cons, List.mem_singleton, List.not_mem_nil, or_false] using hn
  have hmem : n ∈ caseLabels K ↔
      (n = K.ERFA_WGS84 ∨ n = K.ERFA_GRS80 ∨ n = K.ERFA_WGS72 ∨
       n = ERFA_IAUMOON1988 ∨ n = ERFA_IAUMOON1979 ∨
       n = ERFA_IAUMERCURY2015 ∨ n = ERFA_IAUMERCURY2009 ∨ n = ERFA_IAUMERCURY1979 ∨
       n = ERFA_IAUVENUS1991 ∨ n = ERFA_IAUVENUS1982 ∨
       n = ERFA_IAUMARS2000 ∨ n = ERFA_IAUMARS1979) := by
    simp only [caseLabels, List.mem_cons, List.mem_singleton, List.not_mem_nil, or_false]
  have key : (eraBform K n c = (-1, ⟨0, 0⟩) ↔
        (n ≠ K.ERFA_WGS84 ∧ n ≠ K.ERFA_GRS80 ∧ n ≠ K.ERFA_WGS72)) ∧
      ((eraBform K n c).1 = 0 ↔
        (n = K.ERFA_WGS84 ∨ n = K.ERFA_GRS80 ∨ n = K.ERFA_WGS72)) := by
    rcases eraBform_cases K n c with
    ⟨e, hr⟩ | ⟨e, hr⟩ | ⟨e, hr⟩ | ⟨e, hr⟩ | ⟨e, hr⟩ | ⟨e, hr⟩ | ⟨e, hr⟩ |
    ⟨e, hr⟩ | ⟨e, hr⟩ | ⟨e, hr⟩ | ⟨e, hr⟩ | ⟨e, hr⟩ | ⟨e, hr⟩
    · rw [hr]
      exact ⟨⟨fun h => absurd (congrArg Prod.fst h) (by decide), fun h => absurd e h.1⟩,
        ⟨fun _ => Or.inl e, fun _ => rfl⟩⟩
    · rw [hr]
      exact ⟨⟨fun h => absurd (congrArg Prod.fst h) (by decide), fun h => absurd e h.2.1⟩,
        ⟨fun _ => Or.inr (Or.inl e), fun _ => rfl⟩⟩
    · rw [hr]
      exact ⟨⟨fun h => absurd (congrArg Prod.fst h) (by decide), fun h => absurd e h.2.2⟩,
        ⟨fun _ => Or.inr (Or.inr e), fun _ => rfl⟩⟩
    case inr.inr.inr.inr.inr.inr.inr.inr.inr.inr.inr.inr =>
      rw [hr]
      have hW : n ≠ K.ERFA_WGS84 := fun h => e (hmem.mpr (Or.inl h))
      have hG : n ≠ K.ERFA_GRS80 := fun h => e (hmem.mpr (Or.inr (Or.inl h)))
      have hS : n ≠ K.ERFA_WGS72 := fun h => e (hmem.mpr (Or.inr (Or.inr (Or.inl h))))
      refine ⟨⟨fun _ => ⟨hW, hG, hS⟩, fun _ => rfl⟩,
        ⟨fun h => absurd h (by decide), fun h => ?_⟩⟩
      rcases h with h | h | h
      · exact absurd h hW
      · exact absurd h hG
      · exact absurd h hS
    all_goals
      exfalso
      clear hr hmem hn
      simp only [ERFA_IAUMOON1988, ERFA_IAUMOON1979,
        ERFA_IAUMERCURY2015, ERFA_IAUMERCURY2009, ERFA_IAUMERCURY1979,
        ERFA_IAUVENUS1991, ERFA_IAUVENUS1982, ERFA_IAUMARS2000, ERFA_IAUMARS1979] at e
      omega
  refine ⟨key.1, key.2, ?_⟩
  intro hW hG hS
  rw [key.2, hW, hG, hS]

/-- Witness of `eraBform_invalid_examples`: the identifier 13 under the Earth
identifiers 1, 2, 3, the cells holding 7 and 9 before the call. -/
theorem eraBform_invalid_examples_witness :
    (13 : Int) ∈ [(0 : Int), 1, 2, 3, 13, -1, 999] ∧
    (eraBform earth123 13 ⟨7, 9⟩ = (-1, ⟨0, 0⟩) ↔
      ((13 : Int) ≠ earth123.ERFA_WGS84 ∧ (13 : Int) ≠ earth123.ERFA_GRS80 ∧
        (13 : Int) ≠ earth123.ERFA_WGS72)) ∧
    ((eraBform earth123 13 ⟨7, 9⟩).1 = 0 ↔
      ((13 : Int) = earth123.ERFA_WGS84 ∨ (13 : Int) = earth123.ERFA_GRS80 ∨
        (13 : Int) = earth123.ERFA_WGS72)) ∧
    (earth123.ERFA_WGS84 = 1 → earth123.ERFA_GRS80 = 2 → earth123.ERFA_WGS72 = 3 →
      ((eraBform earth123 13 ⟨7, 9⟩).1 = 0 ↔
        ((13 : Int) = 1 ∨ (13 : Int) = 2 ∨ (13 : Int) = 3))) :=
  ⟨by decide, eraBform_invalid_examples earth123 13 ⟨7, 9⟩ (by decide)⟩

/-- Claim C4: the flattening `eraBform` returns is exactly 0 for every
sphere-modelled body (both Moon identifiers, the three Mercury identifiers, both
Venus identifiers) and is strictly between 0 and 1 for every ellipsoidal body
(WGS84, GRS80, WGS72, Mars 2000, Mars 1979), the constants read as exact
rationals. -/
theorem eraBform_flattening (K : Erfam) (h : LabelsDistinct K) (c : Cells) :
    (eraBform K ERFA_IAUMOON1988 c).2.f = 0 ∧
    (eraBform K ERFA_IAUMOON1979 c).2.f = 0 ∧
    (eraBform K ERFA_IAUMERCURY2015 c).2.f = 0 ∧
    (eraBform K ERFA_IAUMERCURY2009 c).2.f = 0 ∧
    (eraBform K ERFA_IAUMERCURY1979 c).2.f = 0 ∧
    (eraBform K ERFA_IAUVENUS1991 c).2.f = 0 ∧
    (eraBform K ERFA_IAUVENUS1982 c).2.f = 0 ∧
    (0 < (eraBform K K.ERFA_WGS84 c).2.f ∧ (eraBform K K.ERFA_WGS84 c).2.f < 1) ∧
    (0 < (eraBform K K.ERFA_GRS80 c).2.f ∧ (eraBform K K.ERFA_GRS80 c).2.f < 1) ∧
    (0 < (eraBform K K.ERFA_WGS72 c).2.f ∧ (eraBform K K.ERFA_WGS72 c).2.f < 1) ∧
    (0 < (eraBform K ERFA_IAUMARS2000 c).2.f ∧ (eraBform K ERFA_IAUMARS2000 c).2.f < 1) ∧
    (0 < (eraBform K ERFA_IAUMARS1979 c).2.f ∧ (eraBform K ERFA_IAUMARS1979 c).2.f < 1) := by
  obtain ⟨h12, h13, h23, hm⟩ := labels_ne K h
  have e4 := hm 4 (by decide) (by decide)
  have e5 := hm 5 (by decide) (by decide)
  have e6 := hm 6 (by decide) (by decide)
  have e7 := hm 7 (by decide) (by decide)
  have e8 := hm 8 (by decide) (by decide)
  have e9 := hm 9 (by decide) (by decide)
  have e10 := hm 10 (by decide) (by decide)
  have e11 := hm 11 (by decide) (by decide)
  have e12 := hm 12 (by decide) (by decide)
  have h21 := h12.symm
  have h31 := h13.symm
  have h32 := h23.symm
  refine ⟨?_, ?_, ?_, ?_, ?_, ?_, ?_, ?_, ?_, ?_, ?_, ?_⟩ <;>
    simp only [eraBform, ERFA_IAUMOON1988, ERFA_IAUMOON1979,
      ERFA_IAUMERCURY2015, ERFA_IAUMERCURY2009, ERFA_IAUMERCURY1979,
      ERFA_IAUVENUS1991, ERFA_IAUVENUS1982, ERFA_IAUMARS2000, ERFA_IAUMARS1979,
      h21, h31, h32, e4, e5, e6, e7, e8, e9, e10, e11, e12, if_true, if_false] <;>
    norm_num

/-- Witness of `eraBform_flattening`: the Earth identifiers 1, 2, 3, the
cells holding 7 and 9 before the call. -/
theorem eraBform_flattening_witness :
    LabelsDistinct earth123 ∧
    (eraBform earth123 ERFA_IAUMOON1988 ⟨7, 9⟩).2.f = 0 ∧
    (eraBform earth123 ERFA_IAUMOON1979 ⟨7, 9⟩).2.f = 0 ∧
    (eraBform earth123 ERFA_IAUMERCURY2015 ⟨7, 9⟩).2.f = 0 ∧
    (eraBform earth123 ERFA_IAUMERCURY2009 ⟨7, 9⟩).2.f = 0 ∧
    (eraBform earth123 ERFA_IAUMERCURY1979 ⟨7, 9⟩).2.f = 0 ∧
    (eraBform earth123 ERFA_IAUVENUS1991 ⟨7, 9⟩).2.f = 0 ∧
    (eraBform earth123 ERFA_IAUVENUS1982 ⟨7, 9⟩).2.f = 0 ∧
    (0 < (eraBform earth123 earth123.ERFA_WGS84 ⟨7, 9⟩).2.f ∧ (eraBform earth123 earth123.ERFA_WGS84 ⟨7, 9⟩).2.f < 1) ∧
    (0 < (eraBform earth123 earth123.ERFA_GRS80 ⟨7, 9⟩).2.f ∧ (eraBform earth123 earth123.ERFA_GRS80 ⟨7, 9⟩).2.f < 1) ∧
    (0 < (eraBform earth123 earth123.ERFA_WGS72 ⟨7, 9⟩).2.f ∧ (eraBform earth123 earth123.ERFA_WGS72 ⟨7, 9⟩).2.f < 1) ∧
    (0 < (eraBform earth123 ERFA_IAUMARS2000 ⟨7, 9⟩).2.f ∧ (eraBform earth123 ERFA_IAUMARS2000 ⟨7, 9⟩).2.f < 1) ∧
    (0 < (eraBform earth123 ERFA_IAUMARS1979 ⟨7, 9⟩).2.f ∧ (eraBform earth123 ERFA_IAUMARS1979 ⟨7, 9⟩).2.f < 1) :=
  ⟨by decide, eraBform_flattening earth123 (by decide) ⟨7, 9⟩⟩

/-- Claim C6: `eraBform` is a pure function of its identifier: for every
integer `n` and any two prior contents of the output cells, the returned
status and the final contents of `a` and `f` are the same, because every path
writes both cells before returning.  The function has no other state: its
inputs are the identifier and the cells, its outputs the status and the
cells. -/
theorem eraBform_pure (K : Erfam) (n : Int) (c₁ c₂ : Cells) :
    eraBform K n c₁ = eraBform K n c₂ := rfl

/-- Claim C7: the zeroed radius is an unambiguous failure sentinel: for every
integer `n`, `eraBform` sets a = 0 if and only if it returns status -1, and
whenever the status is 0 the radius is strictly positive, at least 1738000 and
at most 6378137, and the flattening satisfies 0 <= f < 1. -/
theorem eraBform_sentinel (K : Erfam) (n : Int) (c : Cells) :
    ((eraBform K n c).2.a = 0 ↔ (eraBform K n c).1 = -1) ∧
    ((eraBform K n c).1 = 0 →
      0 < (eraBform K n c).2.a ∧
      1738000 ≤ (eraBform K n c).2.a ∧ (eraBform K n c).2.a ≤ 6378137 ∧
      0 ≤ (eraBform K n c).2.f ∧ (eraBform K n c).2.f < 1) := by
  rcases eraBform_cases K n c with
    ⟨-, hr⟩ | ⟨-, hr⟩ | ⟨-, hr⟩ | ⟨-, hr⟩ | ⟨-, hr⟩ | ⟨-, hr⟩ | ⟨-, hr⟩ |
    ⟨-, hr⟩ | ⟨-, hr⟩ | ⟨-, hr⟩ | ⟨-, hr⟩ | ⟨-, hr⟩ | ⟨-, hr⟩ <;>
  rw [hr] <;> norm_num

/-- Claim C8: `eraBform` is injective on valid identifiers: for two distinct
identifiers on which it returns status 0 the returned pairs (a, f) differ, and
the radii alone differ unless the two identifiers are WGS84 and GRS80 (which
share the radius and differ in flattening); so a successful result determines
which ellipsoid was requested. -/
theorem eraBform_injective (K : Erfam) (n₁ n₂ : Int) (c₁ c₂ : Cells)
    (h₁ : (eraBform K n₁ c₁).1 = 0) (h₂ : (eraBform K n₂ c₂).1 = 0)
    (hne : n₁ ≠ n₂) :
    (eraBform K n₁ c₁).2 ≠ (eraBform K n₂ c₂).2 ∧
    ((eraBform K n₁ c₁).2.a = (eraBform K n₂ c₂).2.a →
      (n₁ = K.ERFA_WGS84 ∧ n₂ = K.ERFA_GRS80) ∨
      (n₁ = K.ERFA_GRS80 ∧ n₂ = K.ERFA_WGS84)) := by
  rcases eraBform_cases K n₁ c₁ with
    ⟨e₁, hr⟩ | ⟨e₁, hr⟩ | ⟨e₁, hr⟩ | ⟨e₁, hr⟩ | ⟨e₁, hr⟩ | ⟨e₁, hr⟩ | ⟨e₁, hr⟩ |
    ⟨e₁, hr⟩ | ⟨e₁, hr⟩ | ⟨e₁, hr⟩ | ⟨e₁, hr⟩ | ⟨e₁, hr⟩ | ⟨e₁, hr⟩ <;>
  rw [hr] at h₁ ⊢ <;>
  rcases eraBform_cases K n₂ c₂ with
    ⟨e₂, hs⟩ | ⟨e₂, hs⟩ | ⟨e₂, hs⟩ | ⟨e₂, hs⟩ | ⟨e₂, hs⟩ | ⟨e₂, hs⟩ | ⟨e₂, hs⟩ |
    ⟨e₂, hs⟩ | ⟨e₂, hs⟩ | ⟨e₂, hs⟩ | ⟨e₂, hs⟩ | ⟨e₂, hs⟩ | ⟨e₂, hs⟩ <;>
  rw [hs] at h₂ ⊢ <;>
  first
    | exact absurd (e₁.trans e₂.symm) hne
    | exact absurd h₁ (by decide)
    | exact absurd h₂ (by decide)
    | exact ⟨by intro h; rw [Cells.mk.injEq] at h; norm_num at h,
        fun _ => Or.inl ⟨e₁, e₂⟩⟩
    | exact ⟨by intro h; rw [Cells.mk.injEq] at h; norm_num at h,
        fun _ => Or.inr ⟨e₁, e₂⟩⟩
    | exact ⟨by intro h; rw [Cells.mk.injEq] at h; norm_num at h,
        by intro h; norm_num at h⟩

/-- Witness of `eraBform_injective`: WGS84 and GRS80 under the Earth
identifiers 1, 2, 3, the one pair of models with equal radii. -/
theorem eraBform_injective_witness :
    (eraBform earth123 1 ⟨0, 0⟩).1 = 0 ∧ (eraBform earth123 2 ⟨0, 0⟩).1 = 0 ∧
    (1 : Int) ≠ 2 ∧
    (eraBform earth123 1 ⟨0, 0⟩).2 ≠ (eraBform earth123 2 ⟨0, 0⟩).2 ∧
    ((eraBform earth123 1 ⟨0, 0⟩).2.a = (eraBform earth123 2 ⟨0, 0⟩).2.a →
      ((1 : Int) = earth123.ERFA_WGS84 ∧ (2 : Int) = earth123.ERFA_GRS80) ∨
      ((1 : Int) = earth123.ERFA_GRS80 ∧ (2 : Int) = earth123.ERFA_WGS84)) :=
  ⟨by decide, by decide, by decide,
    eraBform_injective earth123 1 2 ⟨0, 0⟩ ⟨0, 0⟩ (by decide) (by decide) (by decide)⟩

/-! ## The leap-second store -/

/-- Claim C5: for every sequence of leap-second records and every count from
zero up to the number of records supplied, `eraSetLeapSeconds` followed
immediately by `eraGetLeapSeconds` returns that same count and a table of that
many records, element-wise equal (year, month, delta-AT) to the records that
were set, whatever the table held before. -/
theorem eraGetLeapSeconds_eraSetLeapSeconds
    (leapseconds : List eraLEAPSECOND) (count : Int) (t : LeapSecondTable)
    (h0 : 0 ≤ count) (hlen : count ≤ leapseconds.length) :
    (eraGetLeapSeconds (eraSetLeapSeconds leapseconds count t)).1 = count ∧
    ((eraGetLeapSeconds (eraSetLeapSeconds leapseconds count t)).2.length : Int) = count ∧
    ∀ i : Nat, (i : Int) < count →
      ∃ r s, leapseconds[i]? = some r ∧
        (eraGetLeapSeconds (eraSetLeapSeconds leapseconds count t)).2[i]? = some s ∧
        s.iyear = r.iyear ∧ s.month = r.month ∧ s.delat = r.delat := by
  have hlen2 : count.toNat ≤ leapseconds.length := by omega
  have hc : ((leapseconds.take count.toNat).length : Int) = count := by
    rw [List.length_take, Nat.min_eq_left hlen2]
    exact Int.toNat_of_nonneg h0
  refine ⟨hc, hc, ?_⟩
  intro i hi
  have hi2 : i < count.toNat := by omega
  have hi3 : i < leapseconds.length := by omega
  refine ⟨leapseconds[i], leapseconds[i], List.getElem?_eq_getElem hi3, ?_, rfl, rfl, rfl⟩
  show (leapseconds.take count.toNat)[i]? = some leapseconds[i]
  rw [List.getElem?_take_of_lt hi2]
  exact List.getElem?_eq_getElem hi3

/-- Witness of `eraGetLeapSeconds_eraSetLeapSeconds`: two records set over a
table that held one. -/
theorem eraGetLeapSeconds_eraSetLeapSeconds_witness :
    (0 : Int) ≤ 2 ∧
    (2 : Int) ≤ ([⟨1972, 1, 10⟩, ⟨1972, 7, 11⟩] : List eraLEAPSECOND).length ∧
    (eraGetLeapSeconds
      (eraSetLeapSeconds [⟨1972, 1, 10⟩, ⟨1972, 7, 11⟩] 2 ⟨[⟨1961, 1, 1⟩]⟩)).1 = 2 ∧
    ((eraGetLeapSeconds
      (eraSetLeapSeconds [⟨1972, 1, 10⟩, ⟨1972, 7, 11⟩] 2 ⟨[⟨1961, 1, 1⟩]⟩)).2.length : Int)
        = 2 ∧
    ∀ i : Nat, (i : Int) < 2 →
      ∃ r s, ([⟨1972, 1, 10⟩, ⟨1972, 7, 11⟩] : List eraLEAPSECOND)[i]? = some r ∧
        (eraGetLeapSeconds
          (eraSetLeapSeconds [⟨1972, 1, 10⟩, ⟨1972, 7, 11⟩] 2 ⟨[⟨1961, 1, 1⟩]⟩)).2[i]?
            = some s ∧
        s.iyear = r.iyear ∧ s.month = r.month ∧ s.delat = r.delat :=
  ⟨by decide, by decide,
    eraGetLeapSeconds_eraSetLeapSeconds [⟨1972, 1, 10⟩, ⟨1972, 7, 11⟩] 2 ⟨[⟨1961, 1, 1⟩]⟩
      (by decide) (by decide)⟩

end Erfa
